import Mathlib

/-
  Verification development for the zoning ML-dataset preparation pipeline
  (prepare_ml_training_dataset_fixed.py).

  The Python source is shallowly embedded below.  Machine integers and JSON
  numbers are modelled as Int; JSON fields that may be absent or null are
  modelled as Option; Python dicts built by repeated assignment are modelled
  as association lists looked up with last-binding-wins semantics; Python
  exceptions (KeyError on a missing dict key) are modelled with Except.
-/

/-- Lookup in a Python dict that was built by iterating and assigning
    `d[k] = v`: the last binding for a key wins. -/
def pyDictGet {α β : Type} [BEq α] (l : List (α × β)) (k : α) : Option β :=
  (l.reverse.find? (fun p => p.1 == k)).map (fun p => p.2)

/-- Characters of the last `/`-separated segment; models the Python
    expression `filename.split("/")[-1]`.  `cur` holds the chars of the
    current segment in reverse. -/
def lastSegment (cur : List Char) : List Char → List Char
  | [] => cur.reverse
  | c :: cs => if c = '/' then lastSegment [] cs else lastSegment (c :: cur) cs

/-- Models `filename.split("/")[-1]` (basename extraction used for both the
    COCO image file_name and the Label Studio upload filename). -/
def basename (s : String) : String :=
  String.mk (lastSegment [] s.data)

/-- Does the second char list start with the first? -/
def chStarts : List Char → List Char → Bool
  | [], _ => true
  | _ :: _, [] => false
  | a :: as, b :: bs => a == b && chStarts as bs

/-- Does the char list contain `sub` as a contiguous run? -/
def chHasSub (sub : List Char) : List Char → Bool
  | [] => chStarts sub []
  | b :: bs => chStarts sub (b :: bs) || chHasSub sub bs

/-- Models the Python substring test `sub in s`. -/
def strContains (s sub : String) : Bool :=
  chHasSub sub.data s.data

/- ===== Value export (Label Studio) input model, per source lines 30-117 ===== -/

/-- One result record inside a Label Studio annotation, flattened: the
    discriminators `type` and `from_name` (absent field = none) and the
    fields of the nested `value` dict that the extractor reads.  A field the
    record lacks is `none` (respectively `[]` for the list-valued ones). -/
structure LSResult where
  rtype : Option String
  from_name : Option String
  value_rectanglelabels : List String
  value_x : Option Int
  value_y : Option Int
  value_width : Option Int
  value_height : Option Int
  value_original_width : Option Int
  value_original_height : Option Int
  value_number : Option Int
  value_text : List String
  value_choices : List String
deriving DecidableEq

/-- One entry of a task record list `task["annotations"]`; the extractor only
    reads its `result` list (`annotation.get("result", [])`). -/
structure LSAnnoEntry where
  result : List LSResult
deriving DecidableEq

/-- One Label Studio task (one page).  `file_upload` and the nested
    `data.image` may be absent. -/
structure LSTask where
  file_upload : Option String
  data_image : Option String
  annos : List LSAnnoEntry
deriving DecidableEq

/-- Rectangle captured by the extractor (source lines 60-72). -/
structure RectEntry where
  labels : List String
  x : Int
  y : Int
  width : Int
  height : Int
  original_width : Int
  original_height : Int
deriving DecidableEq

/-- Numeric value captured by the extractor (source lines 74-81); the
    `number` field of the value dict may be absent or null, hence Option. -/
structure NumEntry where
  number : Option Int
  x : Int
  y : Int
deriving DecidableEq

/-- Zone-code text captured by the extractor (source lines 83-92). -/
structure ZoneEntry where
  text : String
  x : Int
  y : Int
deriving DecidableEq

/-- Unit choice captured by the extractor (source lines 94-103). -/
structure UnitEntry where
  unit : String
  x : Int
  y : Int
deriving DecidableEq

/-- The per-page value index (source lines 40-49).  The source also
    initializes `qualifiers` and `notes` lists, but never appends to or reads
    them, so they are omitted here. -/
structure PageValues where
  filename : String
  rectangles : List RectEntry
  normalized_values : List NumEntry
  zone_codes : List ZoneEntry
  units : List UnitEntry
  all_results : List LSResult
deriving DecidableEq

/-- The page value index a missing page defaults to: in the source,
    `values_by_page.get(filename, {})` yields an empty dict, whose `.get` of
    every list is falsy, which behaves exactly like this all-empty index. -/
def emptyPageValues : PageValues :=
  { filename := "", rectangles := [], normalized_values := [], zone_codes := [],
    units := [], all_results := [] }

/-- Classification of a single result record (source lines 55-103): an
    elif-chain on `type` / `from_name`, each branch appending to one typed
    list; every record is also appended to `all_results`. -/
def addResult (pv : PageValues) (r : LSResult) : PageValues :=
  let pv1 := { pv with all_results := pv.all_results ++ [r] }
  if r.rtype = some "rectanglelabels" then
    { pv1 with rectangles := pv1.rectangles ++
        [{ labels := r.value_rectanglelabels, x := r.value_x.getD 0,
           y := r.value_y.getD 0, width := r.value_width.getD 0,
           height := r.value_height.getD 0,
           original_width := r.value_original_width.getD 2550,
           original_height := r.value_original_height.getD 1650 }] }
  else if r.from_name = some "normalized_value" then
    { pv1 with normalized_values := pv1.normalized_values ++
        [{ number := r.value_number, x := r.value_x.getD 0, y := r.value_y.getD 0 }] }
  else if r.from_name = some "zone_code_text" then
    let text := if r.value_text.isEmpty then "" else r.value_text.headD ""
    if text ≠ "" then
      { pv1 with zone_codes := pv1.zone_codes ++
          [{ text := text, x := r.value_x.getD 0, y := r.value_y.getD 0 }] }
    else pv1
  else if r.from_name = some "unit" then
    if r.value_choices.isEmpty then pv1
    else
      { pv1 with units := pv1.units ++
          [{ unit := r.value_choices.headD "", x := r.value_x.getD 0,
             y := r.value_y.getD 0 }] }
  else pv1

/-- Processing of one task (source lines 36-105): three-tier page-key
    fallback (`file_upload`, then `data.image`, then `page_<idx>`), then a
    fold of `addResult` over every result of every annotation entry.  The
    source guards the loop with `if "annotations" in task and
    task["annotations"]`, which is equivalent to folding over the possibly
    empty concatenation. -/
def extractTask (task_idx : Nat) (task : LSTask) : String × PageValues :=
  let fu := task.file_upload.getD ""
  let filename := if fu ≠ "" then fu else task.data_image.getD ""
  let page_key := if filename ≠ "" then basename filename
                  else "page_" ++ toString task_idx
  let pv0 : PageValues :=
    { filename := filename, rectangles := [], normalized_values := [],
      zone_codes := [], units := [], all_results := [] }
  (page_key, ((task.annos.map (fun an => an.result)).flatten).foldl addResult pv0)

/-- Source lines 30-117: builds `values_by_page`.  The Python dict assignment
    `values_by_page[page_key] = page_values` (later duplicate keys overwrite
    earlier ones) is modelled by keeping the tasks in order and reading with
    `pyDictGet` (last binding wins). -/
def extract_all_label_studio_values (tasks : List LSTask) : List (String × PageValues) :=
  tasks.enum.map (fun p => extractTask p.1 p.2)

/- ===== Structural export (COCO) input model ===== -/

/-- COCO bounding box `[x, y, width, height]` (source line 141). -/
structure BBox where
  x : Int
  y : Int
  w : Int
  h : Int
deriving DecidableEq

/-- One entry of the COCO `images` list. -/
structure CocoImage where
  id : Nat
  file_name : String
deriving DecidableEq

/-- One entry of the COCO `categories` list. -/
structure CocoCategory where
  id : Nat
  name : String
deriving DecidableEq

/-- One entry of the COCO `annotations` list. -/
structure CocoAnno where
  id : Nat
  image_id : Nat
  category_id : Nat
  bbox : BBox
deriving DecidableEq

/-- The parsed structural export: the three top-level lists that
    `load_datasets` hands to `merge_with_coco`. -/
structure CocoData where
  images : List CocoImage
  annos : List CocoAnno
  categories : List CocoCategory
deriving DecidableEq

/-- The merged annotation record built at source lines 148-159. -/
structure FusedAnno where
  id : Nat
  image_id : Nat
  image_filename : String
  category : String
  bbox : BBox
  bbox_area : Int
  normalized_value : Option Int
  unit : Option String
  zone_code : Option String
  has_values : Bool
deriving DecidableEq

/-- The numeric-field category list of source lines 175-176. -/
def numericCategories : List String :=
  ["MIN_LOT_AREA", "MIN_LOT_WIDTH", "FRONT_YARD", "SIDE_YARD",
   "REAR_YARD", "MAX_HEIGHT_FT", "MAX_LOT_COVERAGE"]

/-- Page value index for one annotation (source lines 144-145):
    `image_id_to_filename.get(image_id, "")` then
    `values_by_page.get(filename, {})`. -/
def pageValuesOf (imap : List (Nat × String)) (vbp : List (String × PageValues))
    (a : CocoAnno) : PageValues :=
  (pyDictGet vbp ((pyDictGet imap a.image_id).getD "")).getD emptyPageValues

/-- ZONE_CODE branch (source lines 161-172): scan the page zone codes in
    order, assign the first text not already in `zones_found`, register it.
    The source guards with `if page_values.get("zone_codes")`; scanning an
    empty list finds nothing, which is the same behavior. -/
def processZone (base : FusedAnno) (pv : PageValues) (zones : List String) :
    FusedAnno × List String :=
  if pv.zone_codes.isEmpty then (base, zones)
  else
    match pv.zone_codes.find? (fun z => !(zones.contains z.text)) with
    | some z => ({ base with zone_code := some z.text, has_values := true },
                 z.text :: zones)
    | none => (base, zones)

/-- Value assignment of the numeric-category branch (source lines 177-183).
    `k` is `len(merged_annotations)`, the count of fused annotations produced
    so far in the run.  A value is assigned only when
    `k < len(normalized_values)` (and then `k % len = k`); `has_values` is
    set whenever an entry is selected, even when its `number` is null. -/
def numericValuePhase (base : FusedAnno) (pv : PageValues) (k : Nat) : FusedAnno :=
  if pv.normalized_values.isEmpty then base
  else if k < pv.normalized_values.length then
    match pv.normalized_values.get? (k % pv.normalized_values.length) with
    | some e => { base with normalized_value := e.number, has_values := true }
    | none => base
  else base

/-- Unit inference (source lines 185-193): only runs when the page has at
    least one recorded unit choice; the inferred unit depends solely on
    substring tests against the category name. -/
def unitPhase (step1 : FusedAnno) (pv : PageValues) (category_name : String) : FusedAnno :=
  if pv.units.isEmpty then step1
  else if strContains category_name "LOT_AREA" || strContains category_name "FLOOR_AREA" then
    { step1 with unit := some "sqft" }
  else if strContains category_name "HEIGHT_FT" || strContains category_name "YARD"
      || strContains category_name "WIDTH" then
    { step1 with unit := some "ft" }
  else if strContains category_name "COVERAGE" then
    { step1 with unit := some "percent" }
  else step1

/-- The numeric-category branch: value phase (lines 177-183) then unit
    phase (lines 185-193). -/
def processNumeric (base : FusedAnno) (pv : PageValues) (k : Nat)
    (category_name : String) : FusedAnno :=
  unitPhase (numericValuePhase base pv k) pv category_name

/-- The record base built at source lines 148-159, before category-specific
    handling. -/
def baseFused (imap : List (Nat × String)) (a : CocoAnno)
    (category_name : String) : FusedAnno :=
  { id := a.id, image_id := a.image_id,
    image_filename := (pyDictGet imap a.image_id).getD "",
    category := category_name, bbox := a.bbox,
    bbox_area := a.bbox.w * a.bbox.h, normalized_value := none,
    unit := none, zone_code := none, has_values := false }

/-- One iteration of the annotation loop (source lines 137-195).  The plain
    dict indexing `category_id_to_name[category_id]` raises KeyError when the
    category id is dangling, modelled as Except.error; the image lookup uses
    `.get(image_id, "")` and never raises. -/
def processOne (cmap imap : List (Nat × String)) (vbp : List (String × PageValues))
    (k : Nat) (zones : List String) (a : CocoAnno) :
    Except String (FusedAnno × List String) :=
  match pyDictGet cmap a.category_id with
  | none => Except.error ("KeyError: " ++ toString a.category_id)
  | some category_name =>
    let pv := pageValuesOf imap vbp a
    let base := baseFused imap a category_name
    if category_name = "ZONE_CODE" then
      Except.ok (processZone base pv zones)
    else if numericCategories.contains category_name then
      Except.ok (processNumeric base pv k category_name, zones)
    else
      Except.ok (base, zones)

/-- The annotation loop of `merge_with_coco`: `k` counts the annotations
    already merged, `zones` is the `zones_found` set. -/
def mergeLoop (cmap imap : List (Nat × String)) (vbp : List (String × PageValues)) :
    List CocoAnno → Nat → List String → Except String (List FusedAnno)
  | [], _, _ => Except.ok []
  | a :: rest, k, zones =>
    match processOne cmap imap vbp k zones a with
    | Except.error e => Except.error e
    | Except.ok (fa, zs) =>
      match mergeLoop cmap imap vbp rest (k + 1) zs with
      | Except.error e => Except.error e
      | Except.ok out => Except.ok (fa :: out)

/-- Source lines 119-206: builds the id-to-filename and id-to-name maps
    (basename-normalized filenames), then walks the annotations with an
    initially empty `zones_found` registry. -/
def merge_with_coco (coco : CocoData) (vbp : List (String × PageValues)) :
    Except String (List FusedAnno) :=
  let imap := coco.images.map (fun img => (img.id, basename img.file_name))
  let cmap := coco.categories.map (fun c => (c.id, c.name))
  mergeLoop cmap imap vbp coco.annos 0 []

/- ===== Dataset builder (source lines 208-252) ===== -/

/-- Python truthiness of an optional string (None and "" are falsy). -/
def pyTruthyStr : Option String → Bool
  | none => false
  | some s => s ≠ ""

/-- Python truthiness of an optional number (None and 0 are falsy). -/
def pyTruthyInt : Option Int → Bool
  | none => false
  | some n => n != 0

/-- The tiering test of source line 217: `if anno["zone_code"] or
    anno["normalized_value"]` — Python truthiness of the two fields, not the
    `has_values` flag. -/
def isHighQuality (a : FusedAnno) : Bool :=
  pyTruthyStr a.zone_code || pyTruthyInt a.normalized_value

/-- The split index `int(len(tier) * 0.8)` of source lines 230-231.  For
    every length that a list can realistically have (below 2^50), the IEEE
    double product `n * 0.8` is at least 4n/5 and below the next integer
    (0.8 rounds up in binary, so the product never rounds below an exact
    multiple), hence Python int() truncation yields exactly ⌊4n/5⌋, which is
    Nat division. -/
def splitIndex (n : Nat) : Nat := n * 4 / 5

/-- The dataset envelope of source lines 242-252. -/
structure Dataset where
  train : List FusedAnno
  validation : List FusedAnno
  high_quality : List FusedAnno
  medium_quality : List FusedAnno
  total_annos : Nat
  with_values : Nat
  categories : List String
deriving DecidableEq

/-- Source lines 208-252.  `np.random.seed(42)` followed by four
    `np.random.shuffle` calls is modelled by an abstract seeded generator:
    `σ` is the generator state type, `np_seed` the seeding function and
    `np_shuffle` the in-place shuffle, which returns the permuted list
    together with the advanced state.  The state is threaded through the four
    shuffle calls in source order.  The in-place mutation of the source means
    the envelope fields hold the post-shuffle lists. -/
def create_training_dataset (σ : Type) (np_seed : Nat → σ)
    (np_shuffle : σ → List FusedAnno → List FusedAnno × σ)
    (merged_annos : List FusedAnno) : Dataset :=
  let high_quality0 := merged_annos.filter (fun a => isHighQuality a)
  let medium_quality0 := merged_annos.filter (fun a => !(isHighQuality a))
  let p1 := np_shuffle (np_seed 42) high_quality0
  let p2 := np_shuffle p1.2 medium_quality0
  let high_quality := p1.1
  let medium_quality := p2.1
  let hq_split := splitIndex high_quality.length
  let mq_split := splitIndex medium_quality.length
  let train_set0 := high_quality.take hq_split ++ medium_quality.take mq_split
  let val_set0 := high_quality.drop hq_split ++ medium_quality.drop mq_split
  let p3 := np_shuffle p2.2 train_set0
  let p4 := np_shuffle p3.2 val_set0
  { train := p3.1, validation := p4.1,
    high_quality := high_quality, medium_quality := medium_quality,
    total_annos := merged_annos.length,
    with_values := high_quality.length,
    categories := (merged_annos.map (fun a => a.category)).eraseDups }

/-- The pipeline of `main` without the file I/O: extract, merge, build. -/
def runPipeline (σ : Type) (np_seed : Nat → σ)
    (np_shuffle : σ → List FusedAnno → List FusedAnno × σ)
    (coco : CocoData) (tasks : List LSTask) : Except String Dataset :=
  (merge_with_coco coco (extract_all_label_studio_values tasks)).map
    (create_training_dataset σ np_seed np_shuffle)

/-- A trivial generator instance used by concrete witnesses: state Unit,
    shuffle = identity permutation. -/
def idShuffle : Unit → List FusedAnno → List FusedAnno × Unit :=
  fun s l => (l, s)

/-- Seeding function for the trivial generator. -/
def unitSeed : Nat → Unit := fun _ => ()

/-- Reversing generator used to exhibit that envelope tier order is the
    shuffle output order, not the partition order. -/
def revShuffle : Unit → List FusedAnno → List FusedAnno × Unit :=
  fun s l => (l.reverse, s)

/-- Projection of the fields the scenario claims talk about. -/
def fusedSummary (fa : FusedAnno) :
    Option String × Option Int × Option String × Bool :=
  (fa.zone_code, fa.normalized_value, fa.unit, fa.has_values)

/- ===== Stage views of the dataset builder, for the proofs below.  Each is
   definitionally the corresponding intermediate list of
   `create_training_dataset`. ===== -/

/-- First shuffle call: the high-quality tier after the seeded shuffle. -/
def hqShuf (σ : Type) (np_seed : Nat → σ)
    (np_shuffle : σ → List FusedAnno → List FusedAnno × σ)
    (annos : List FusedAnno) : List FusedAnno × σ :=
  np_shuffle (np_seed 42) (annos.filter (fun a => isHighQuality a))

/-- Second shuffle call: the medium-quality tier after the seeded shuffle. -/
def mqShuf (σ : Type) (np_seed : Nat → σ)
    (np_shuffle : σ → List FusedAnno → List FusedAnno × σ)
    (annos : List FusedAnno) : List FusedAnno × σ :=
  np_shuffle (hqShuf σ np_seed np_shuffle annos).2
    (annos.filter (fun a => !(isHighQuality a)))

/-- The training set before its final shuffle (source line 233). -/
def trainPre (σ : Type) (np_seed : Nat → σ)
    (np_shuffle : σ → List FusedAnno → List FusedAnno × σ)
    (annos : List FusedAnno) : List FusedAnno :=
  (hqShuf σ np_seed np_shuffle annos).1.take
      (splitIndex (hqShuf σ np_seed np_shuffle annos).1.length) ++
    (mqShuf σ np_seed np_shuffle annos).1.take
      (splitIndex (mqShuf σ np_seed np_shuffle annos).1.length)

/-- The validation set before its final shuffle (source line 234). -/
def valPre (σ : Type) (np_seed : Nat → σ)
    (np_shuffle : σ → List FusedAnno → List FusedAnno × σ)
    (annos : List FusedAnno) : List FusedAnno :=
  (hqShuf σ np_seed np_shuffle annos).1.drop
      (splitIndex (hqShuf σ np_seed np_shuffle annos).1.length) ++
    (mqShuf σ np_seed np_shuffle annos).1.drop
      (splitIndex (mqShuf σ np_seed np_shuffle annos).1.length)

/-- Third shuffle call (source line 236). -/
def trainShuf (σ : Type) (np_seed : Nat → σ)
    (np_shuffle : σ → List FusedAnno → List FusedAnno × σ)
    (annos : List FusedAnno) : List FusedAnno × σ :=
  np_shuffle (mqShuf σ np_seed np_shuffle annos).2 (trainPre σ np_seed np_shuffle annos)

/-- Fourth shuffle call (source line 237). -/
def valShuf (σ : Type) (np_seed : Nat → σ)
    (np_shuffle : σ → List FusedAnno → List FusedAnno × σ)
    (annos : List FusedAnno) : List FusedAnno × σ :=
  np_shuffle (trainShuf σ np_seed np_shuffle annos).2 (valPre σ np_seed np_shuffle annos)

/- ===== Concrete inputs used by witnesses and counterexamples ===== -/

/-- Zero bounding box for concrete records. -/
def bb0 : BBox := { x := 0, y := 0, w := 0, h := 0 }

/-- A Label Studio result carrying a zone-code text. -/
def zoneResult (t : String) : LSResult :=
  { rtype := some "textarea", from_name := some "zone_code_text",
    value_rectanglelabels := [], value_x := none, value_y := none,
    value_width := none, value_height := none, value_original_width := none,
    value_original_height := none, value_number := none, value_text := [t],
    value_choices := [] }

/-- A Label Studio result carrying a (possibly null) numeric value. -/
def numResult (n : Option Int) : LSResult :=
  { rtype := some "number", from_name := some "normalized_value",
    value_rectanglelabels := [], value_x := none, value_y := none,
    value_width := none, value_height := none, value_original_width := none,
    value_original_height := none, value_number := n, value_text := [],
    value_choices := [] }

/-- A concrete high-quality fused record. -/
def wHigh : FusedAnno :=
  { id := 1, image_id := 1, image_filename := "p.png", category := "ZONE_CODE",
    bbox := bb0, bbox_area := 0, normalized_value := none, unit := none,
    zone_code := some "R-1", has_values := true }

/-- A second, distinct high-quality fused record. -/
def wHighB : FusedAnno := { wHigh with id := 2, zone_code := some "R-2" }

/-- A concrete medium-quality fused record. -/
def wMed : FusedAnno :=
  { id := 3, image_id := 1, image_filename := "p.png", category := "OTHER",
    bbox := bb0, bbox_area := 0, normalized_value := none, unit := none,
    zone_code := none, has_values := false }

/-- Concrete builder input with one record per tier. -/
def wAnnos : List FusedAnno := [wHigh, wMed]

/-- C3 counterexample value export: one page listing zone texts A then B. -/
def c3tasks : List LSTask :=
  [{ file_upload := some "p.png", data_image := none,
     annos := [{ result := [zoneResult "A", zoneResult "B"] }] }]

/-- C3 counterexample structural export: two ZONE_CODE annotations on that
    page. -/
def c3coco : CocoData :=
  { images := [{ id := 1, file_name := "p.png" }],
    annos := [{ id := 1, image_id := 1, category_id := 1, bbox := bb0 },
              { id := 2, image_id := 1, category_id := 1, bbox := bb0 }],
    categories := [{ id := 1, name := "ZONE_CODE" }] }

/-- C4 counterexample value export: one numeric-value record whose number is
    null. -/
def c4tasks : List LSTask :=
  [{ file_upload := some "p.png", data_image := none,
     annos := [{ result := [numResult none] }] }]

/-- C4 counterexample structural export: one MIN_LOT_AREA annotation. -/
def c4coco : CocoData :=
  { images := [{ id := 1, file_name := "p.png" }],
    annos := [{ id := 1, image_id := 1, category_id := 2, bbox := bb0 }],
    categories := [{ id := 2, name := "MIN_LOT_AREA" }] }

/-- C5 counterexample value export: one page with a single numeric value 7. -/
def c5tasks : List LSTask :=
  [{ file_upload := some "p.png", data_image := none,
     annos := [{ result := [numResult (some 7)] }] }]

/-- C5 counterexample structural export: two MIN_LOT_AREA annotations on the
    same page. -/
def c5coco : CocoData :=
  { images := [{ id := 1, file_name := "p.png" }],
    annos := [{ id := 1, image_id := 1, category_id := 2, bbox := bb0 },
              { id := 2, image_id := 1, category_id := 2, bbox := bb0 }],
    categories := [{ id := 2, name := "MIN_LOT_AREA" }] }

/-- C6 scenario value export: one page with zone texts R-1, R-1 and one
    numeric value 5000. -/
def c6tasks : List LSTask :=
  [{ file_upload := some "page1.png", data_image := none,
     annos := [{ result := [zoneResult "R-1", zoneResult "R-1",
                            numResult (some 5000)] }] }]

/-- C6 scenario structural export: 2 images, 3 annotations (two ZONE_CODE
    then one MIN_LOT_AREA, in export order). -/
def c6coco : CocoData :=
  { images := [{ id := 1, file_name := "page1.png" },
               { id := 2, file_name := "page2.png" }],
    annos := [{ id := 11, image_id := 1, category_id := 1, bbox := bb0 },
              { id := 12, image_id := 1, category_id := 1, bbox := bb0 },
              { id := 13, image_id := 1, category_id := 2, bbox := bb0 }],
    categories := [{ id := 1, name := "ZONE_CODE" },
                   { id := 2, name := "MIN_LOT_AREA" }] }

/-- C7 counterexample structural export: well-formed top level (all three
    lists present and non-empty) but the annotation references category id
    99, which is not in the category table. -/
def c7coco : CocoData :=
  { images := [{ id := 1, file_name := "p.png" }],
    annos := [{ id := 1, image_id := 1, category_id := 99, bbox := bb0 }],
    categories := [{ id := 5, name := "MIN_LOT_AREA" }] }

/-- Structural export where every annotation category resolves (for the C7
    witness). -/
def c7okCoco : CocoData :=
  { images := [{ id := 1, file_name := "p.png" }],
    annos := [{ id := 1, image_id := 1, category_id := 5, bbox := bb0 }],
    categories := [{ id := 5, name := "MIN_LOT_AREA" }] }

/-- C9 witness value export: a numeric value record with null number. -/
def c9tasks : List LSTask :=
  [{ file_upload := some "p.png", data_image := none,
     annos := [{ result := [numResult none] }] }]

/-- C9 witness page value index as produced by the extractor. -/
def c9vbp : List (String × PageValues) := extract_all_label_studio_values c9tasks

/-- C9 witness annotation referencing the MIN_LOT_AREA category. -/
def c9anno : CocoAnno := { id := 1, image_id := 1, category_id := 2, bbox := bb0 }

/- ===== Helper lemmas ===== -/

/-- Interchange of the two middle blocks of a four-block concatenation, up to
    permutation. -/
theorem perm_append_swap {α : Type} (A B C D : List α) :
    List.Perm ((A ++ B) ++ (C ++ D)) ((A ++ C) ++ (B ++ D)) := by
  have h1 : List.Perm (B ++ (C ++ D)) (C ++ (B ++ D)) := by
    have h2 : List.Perm ((B ++ C) ++ D) ((C ++ B) ++ D) :=
      List.Perm.append_right D List.perm_append_comm
    simpa [List.append_assoc] using h2
  have h3 : List.Perm (A ++ (B ++ (C ++ D))) (A ++ (C ++ (B ++ D))) :=
    List.Perm.append_left A h1
  simpa [List.append_assoc] using h3

/-- The envelope field `high_quality` is the first shuffle output. -/
theorem ctd_hq (σ : Type) (np_seed : Nat → σ)
    (np_shuffle : σ → List FusedAnno → List FusedAnno × σ)
    (annos : List FusedAnno) :
    (create_training_dataset σ np_seed np_shuffle annos).high_quality
      = (hqShuf σ np_seed np_shuffle annos).1 := rfl

/-- The envelope field `medium_quality` is the second shuffle output. -/
theorem ctd_mq (σ : Type) (np_seed : Nat → σ)
    (np_shuffle : σ → List FusedAnno → List FusedAnno × σ)
    (annos : List FusedAnno) :
    (create_training_dataset σ np_seed np_shuffle annos).medium_quality
      = (mqShuf σ np_seed np_shuffle annos).1 := rfl

/-- The envelope field `train` is the third shuffle output. -/
theorem ctd_train (σ : Type) (np_seed : Nat → σ)
    (np_shuffle : σ → List FusedAnno → List FusedAnno × σ)
    (annos : List FusedAnno) :
    (create_training_dataset σ np_seed np_shuffle annos).train
      = (trainShuf σ np_seed np_shuffle annos).1 := rfl

/-- The envelope field `validation` is the fourth shuffle output. -/
theorem ctd_val (σ : Type) (np_seed : Nat → σ)
    (np_shuffle : σ → List FusedAnno → List FusedAnno × σ)
    (annos : List FusedAnno) :
    (create_training_dataset σ np_seed np_shuffle annos).validation
      = (valShuf σ np_seed np_shuffle annos).1 := rfl

/-- C1: for every input sequence of fused annotations (and any permutation
    behavior of the seeded shuffles), the envelope returned by
    `create_training_dataset` has `high_quality` and `medium_quality`
    disjoint with multiset union equal to the input, the multiset union of
    `train` and `validation` equal to the union of the two tiers, and hence
    `|train| + |validation| = |high_quality| + |medium_quality| = input
    length` — no element omitted or duplicated. -/
theorem c1_split_conservation (σ : Type) (np_seed : Nat → σ)
    (np_shuffle : σ → List FusedAnno → List FusedAnno × σ)
    (hperm : ∀ s l, List.Perm (np_shuffle s l).1 l)
    (annos : List FusedAnno) (d : Dataset)
    (hd : d = create_training_dataset σ np_seed np_shuffle annos) :
    List.Perm (d.high_quality ++ d.medium_quality) annos ∧
    (∀ a ∈ d.high_quality, a ∉ d.medium_quality) ∧
    List.Perm (d.train ++ d.validation) (d.high_quality ++ d.medium_quality) ∧
    d.train.length + d.validation.length = annos.length ∧
    d.high_quality.length + d.medium_quality.length = annos.length := by
  subst hd
  rw [ctd_hq, ctd_mq, ctd_train, ctd_val]
  have hperm1 : List.Perm (hqShuf σ np_seed np_shuffle annos).1
      (annos.filter (fun a => isHighQuality a)) := hperm _ _
  have hperm2 : List.Perm (mqShuf σ np_seed np_shuffle annos).1
      (annos.filter (fun a => !(isHighQuality a))) := hperm _ _
  have hfilters := List.filter_append_perm (fun a => isHighQuality a) annos
  have hunion : List.Perm
      ((hqShuf σ np_seed np_shuffle annos).1 ++ (mqShuf σ np_seed np_shuffle annos).1)
      annos := (hperm1.append hperm2).trans hfilters
  have htr : List.Perm (trainShuf σ np_seed np_shuffle annos).1
      (trainPre σ np_seed np_shuffle annos) := hperm _ _
  have hvl : List.Perm (valShuf σ np_seed np_shuffle annos).1
      (valPre σ np_seed np_shuffle annos) := hperm _ _
  have hmid : List.Perm
      (trainPre σ np_seed np_shuffle annos ++ valPre σ np_seed np_shuffle annos)
      ((hqShuf σ np_seed np_shuffle annos).1 ++ (mqShuf σ np_seed np_shuffle annos).1) := by
    unfold trainPre valPre
    have hswap := perm_append_swap
      ((hqShuf σ np_seed np_shuffle annos).1.take
        (splitIndex (hqShuf σ np_seed np_shuffle annos).1.length))
      ((mqShuf σ np_seed np_shuffle annos).1.take
        (splitIndex (mqShuf σ np_seed np_shuffle annos).1.length))
      ((hqShuf σ np_seed np_shuffle annos).1.drop
        (splitIndex (hqShuf σ np_seed np_shuffle annos).1.length))
      ((mqShuf σ np_seed np_shuffle annos).1.drop
        (splitIndex (mqShuf σ np_seed np_shuffle annos).1.length))
    rwa [List.take_append_drop, List.take_append_drop] at hswap
  have htv : List.Perm
      ((trainShuf σ np_seed np_shuffle annos).1 ++ (valShuf σ np_seed np_shuffle annos).1)
      ((hqShuf σ np_seed np_shuffle annos).1 ++ (mqShuf σ np_seed np_shuffle annos).1) :=
    (htr.append hvl).trans hmid
  refine ⟨hunion, ?_, htv, ?_, ?_⟩
  · intro a ha hmem
    have h1 : a ∈ annos.filter (fun a => isHighQuality a) := hperm1.mem_iff.mp ha
    have h2 : a ∈ annos.filter (fun a => !(isHighQuality a)) := hperm2.mem_iff.mp hmem
    have h3 := (List.mem_filter.mp h1).2
    have h4 := (List.mem_filter.mp h2).2
    simp [h3] at h4
  · have := htv.trans hunion
    have hlen := this.length_eq
    simpa [List.length_append] using hlen
  · have hlen := hunion.length_eq
    simpa [List.length_append] using hlen

/-- C1 witness: the conservation statement instantiated at a concrete
    two-element input with the identity shuffle. -/
theorem c1_split_conservation_witness :
    List.Perm ((create_training_dataset Unit unitSeed idShuffle wAnnos).high_quality ++
        (create_training_dataset Unit unitSeed idShuffle wAnnos).medium_quality) wAnnos ∧
    (∀ a ∈ (create_training_dataset Unit unitSeed idShuffle wAnnos).high_quality,
        a ∉ (create_training_dataset Unit unitSeed idShuffle wAnnos).medium_quality) ∧
    List.Perm ((create_training_dataset Unit unitSeed idShuffle wAnnos).train ++
        (create_training_dataset Unit unitSeed idShuffle wAnnos).validation)
      ((create_training_dataset Unit unitSeed idShuffle wAnnos).high_quality ++
        (create_training_dataset Unit unitSeed idShuffle wAnnos).medium_quality) ∧
    (create_training_dataset Unit unitSeed idShuffle wAnnos).train.length +
        (create_training_dataset Unit unitSeed idShuffle wAnnos).validation.length
      = wAnnos.length ∧
    (create_training_dataset Unit unitSeed idShuffle wAnnos).high_quality.length +
        (create_training_dataset Unit unitSeed idShuffle wAnnos).medium_quality.length
      = wAnnos.length :=
  c1_split_conservation Unit unitSeed idShuffle (fun _ l => List.Perm.refl l)
    wAnnos _ rfl

/-- C2: with the generator seeded at the fixed constant 42 at the start of
    the dataset-building operation, the pipeline is reproducible — two
    executions over identical structural and value exports, with the same
    shuffle behavior and generators that agree at seed 42 (only the seeding
    at 42 matters), produce identical train and validation sequences,
    contents and order. -/
theorem c2_reproducibility (σ : Type) (seed1 seed2 : Nat → σ)
    (shuf1 shuf2 : σ → List FusedAnno → List FusedAnno × σ)
    (coco1 coco2 : CocoData) (tasks1 tasks2 : List LSTask)
    (hseed : seed1 42 = seed2 42) (hshuf : shuf1 = shuf2)
    (hcoco : coco1 = coco2) (htasks : tasks1 = tasks2) :
    (runPipeline σ seed1 shuf1 coco1 tasks1).map (fun d => (d.train, d.validation))
      = (runPipeline σ seed2 shuf2 coco2 tasks2).map (fun d => (d.train, d.validation)) := by
  subst hshuf hcoco htasks
  unfold runPipeline
  cases merge_with_coco coco1 (extract_all_label_studio_values tasks1) with
  | error e => rfl
  | ok annos =>
    simp only [Except.map, create_training_dataset, hseed]

/-- C2 witness: reproducibility at the concrete C6 inputs with the trivial
    generator. -/
theorem c2_reproducibility_witness :
    (runPipeline Unit unitSeed idShuffle c6coco c6tasks).map (fun d => (d.train, d.validation))
      = (runPipeline Unit unitSeed idShuffle c6coco c6tasks).map (fun d => (d.train, d.validation)) :=
  c2_reproducibility Unit unitSeed unitSeed idShuffle idShuffle c6coco c6coco
    c6tasks c6tasks rfl rfl rfl rfl

/-- C10: the envelope returns the very lists produced by the in-place
    seeded shuffles — `high_quality` is the first shuffle output and
    `medium_quality` the second — so the tier order in the envelope is the
    shuffle order, not the stable partition order; the final conjunct
    exhibits a generator and input on which the two orders actually
    differ. -/
theorem c10_tier_order (σ : Type) (np_seed : Nat → σ)
    (np_shuffle : σ → List FusedAnno → List FusedAnno × σ)
    (annos : List FusedAnno) :
    ((create_training_dataset σ np_seed np_shuffle annos).high_quality
      = (np_shuffle (np_seed 42) (annos.filter (fun a => isHighQuality a))).1) ∧
    ((create_training_dataset σ np_seed np_shuffle annos).medium_quality
      = (np_shuffle (np_shuffle (np_seed 42) (annos.filter (fun a => isHighQuality a))).2
          (annos.filter (fun a => !(isHighQuality a)))).1) ∧
    ((create_training_dataset Unit unitSeed revShuffle [wHigh, wHighB]).high_quality
      ≠ [wHigh, wHighB].filter (fun a => isHighQuality a)) :=
  ⟨rfl, rfl, by decide⟩

/-- The split index of the source, `int(len * 0.8)`, equals the rational
    floor of 0.8 times the length. -/
theorem splitIndex_eq_floor (n : ℕ) : splitIndex n = Nat.floor ((0.8 : ℚ) * n) := by
  have h : (0.8 : ℚ) * n = ((n * 4 : ℕ) : ℚ) / ((5 : ℕ) : ℚ) := by
    push_cast
    ring_nf
  rw [h, Nat.floor_div_nat, Nat.floor_natCast]
  rfl

/-- C8: for each tier independently the split index is
    `floor(0.8 * tier length)` (never rounded up), and a tier holding
    exactly one element has split index 0, so its element always lands in
    validation and never in train. -/
theorem c8_floor_split (σ : Type) (np_seed : Nat → σ)
    (np_shuffle : σ → List FusedAnno → List FusedAnno × σ)
    (hperm : ∀ s l, List.Perm (np_shuffle s l).1 l)
    (annos : List FusedAnno) (a : FusedAnno) :
    (∀ n : ℕ, splitIndex n = Nat.floor ((0.8 : ℚ) * n)) ∧
    (annos.filter (fun x => isHighQuality x) = [a] →
      a ∈ (create_training_dataset σ np_seed np_shuffle annos).validation ∧
      a ∉ (create_training_dataset σ np_seed np_shuffle annos).train) ∧
    (annos.filter (fun x => !(isHighQuality x)) = [a] →
      a ∈ (create_training_dataset σ np_seed np_shuffle annos).validation ∧
      a ∉ (create_training_dataset σ np_seed np_shuffle annos).train) := by
  have hperm1 : List.Perm (hqShuf σ np_seed np_shuffle annos).1
      (annos.filter (fun x => isHighQuality x)) := hperm _ _
  have hperm2 : List.Perm (mqShuf σ np_seed np_shuffle annos).1
      (annos.filter (fun x => !(isHighQuality x))) := hperm _ _
  have htr : List.Perm (trainShuf σ np_seed np_shuffle annos).1
      (trainPre σ np_seed np_shuffle annos) := hperm _ _
  have hvl : List.Perm (valShuf σ np_seed np_shuffle annos).1
      (valPre σ np_seed np_shuffle annos) := hperm _ _
  refine ⟨splitIndex_eq_floor, ?_, ?_⟩
  · intro hfil
    rw [hfil] at hperm1
    have hhq : (hqShuf σ np_seed np_shuffle annos).1 = [a] :=
      List.perm_singleton.mp hperm1
    have hha : isHighQuality a = true := by
      have : a ∈ annos.filter (fun x => isHighQuality x) := by
        rw [hfil]; exact List.mem_singleton_self a
      exact (List.mem_filter.mp this).2
    constructor
    · rw [ctd_val]
      have hmem : a ∈ valPre σ np_seed np_shuffle annos := by
        unfold valPre
        rw [hhq]
        simp [splitIndex]
      exact hvl.mem_iff.mpr hmem
    · rw [ctd_train]
      intro hmem
      have h2 : a ∈ trainPre σ np_seed np_shuffle annos := htr.mem_iff.mp hmem
      unfold trainPre at h2
      rw [hhq] at h2
      simp only [List.length_singleton, splitIndex] at h2
      norm_num at h2
      have h3 : a ∈ (mqShuf σ np_seed np_shuffle annos).1 := List.take_subset _ _ h2
      have h4 : a ∈ annos.filter (fun x => !(isHighQuality x)) := hperm2.mem_iff.mp h3
      have h5 := (List.mem_filter.mp h4).2
      simp [hha] at h5
  · intro hfil
    rw [hfil] at hperm2
    have hmq : (mqShuf σ np_seed np_shuffle annos).1 = [a] :=
      List.perm_singleton.mp hperm2
    have hha : isHighQuality a = false := by
      have : a ∈ annos.filter (fun x => !(isHighQuality x)) := by
        rw [hfil]; exact List.mem_singleton_self a
      have h5 := (List.mem_filter.mp this).2
      simpa using h5
    constructor
    · rw [ctd_val]
      have hmem : a ∈ valPre σ np_seed np_shuffle annos := by
        unfold valPre
        rw [hmq]
        simp [splitIndex]
      exact hvl.mem_iff.mpr hmem
    · rw [ctd_train]
      intro hmem
      have h2 : a ∈ trainPre σ np_seed np_shuffle annos := htr.mem_iff.mp hmem
      unfold trainPre at h2
      rw [hmq] at h2
      simp only [List.length_singleton, splitIndex] at h2
      norm_num at h2
      have h3 : a ∈ (hqShuf σ np_seed np_shuffle annos).1 := List.take_subset _ _ h2
      have h4 : a ∈ annos.filter (fun x => isHighQuality x) := hperm1.mem_iff.mp h3
      have h5 := (List.mem_filter.mp h4).2
      simp [hha] at h5

/-- C8 witness: at a concrete input whose high-quality tier is the single
    record wHigh, that record is in validation and not in train. -/
theorem c8_floor_split_witness :
    (∀ n : ℕ, splitIndex n = Nat.floor ((0.8 : ℚ) * n)) ∧
    (wAnnos.filter (fun x => isHighQuality x) = [wHigh] →
      wHigh ∈ (create_training_dataset Unit unitSeed idShuffle wAnnos).validation ∧
      wHigh ∉ (create_training_dataset Unit unitSeed idShuffle wAnnos).train) ∧
    (wAnnos.filter (fun x => !(isHighQuality x)) = [wHigh] →
      wHigh ∈ (create_training_dataset Unit unitSeed idShuffle wAnnos).validation ∧
      wHigh ∉ (create_training_dataset Unit unitSeed idShuffle wAnnos).train) :=
  c8_floor_split Unit unitSeed idShuffle (fun _ l => List.Perm.refl l) wAnnos wHigh

/-- C4 counterexample: the pipeline itself produces a fused annotation with
    `has_values = true` (a MIN_LOT_AREA annotation assigned a value entry
    whose number is null), yet the dataset builder places it in
    `medium_quality` and leaves `high_quality` empty — the tiering tests the
    truthiness of `zone_code`/`normalized_value` (source line 217), not the
    `has_values` flag, refuting the claim that `has_values = true` implies
    membership in the high_quality tier. -/
theorem c4_counterexample :
    (runPipeline Unit unitSeed idShuffle c4coco c4tasks).toOption.map
      (fun d => (d.high_quality.map (fun a => a.has_values),
                 d.medium_quality.map (fun a => a.has_values)))
      = some ([], [true]) := rfl

/-- No numeric-field category is the zone-code category. -/
theorem numericCategories_ne_zone {cname : String}
    (h : numericCategories.contains cname = true) : ¬ cname = "ZONE_CODE" := by
  intro heq
  subst heq
  exact absurd h (by decide)

/-- When the scan finds an unregistered text, the zone branch assigns it and
    registers it. -/
theorem processZone_some (base : FusedAnno) (pv : PageValues) (zones : List String)
    (z : ZoneEntry)
    (hfind : pv.zone_codes.find? (fun w => !(zones.contains w.text)) = some z) :
    processZone base pv zones
      = ({ base with zone_code := some z.text, has_values := true },
         z.text :: zones) := by
  unfold processZone
  cases hzc : pv.zone_codes with
  | nil => rw [hzc] at hfind; simp at hfind
  | cons w ws =>
    rw [hzc] at hfind
    simp only [hzc, List.isEmpty_cons, Bool.false_eq_true, if_false, hfind]

/-- When every text on the page is already registered (or there is none),
    the zone branch leaves the record and the registry unchanged. -/
theorem processZone_none (base : FusedAnno) (pv : PageValues) (zones : List String)
    (hfind : pv.zone_codes.find? (fun w => !(zones.contains w.text)) = none) :
    processZone base pv zones = (base, zones) := by
  unfold processZone
  by_cases he : pv.zone_codes.isEmpty = true
  · rw [if_pos he]
  · rw [if_neg he, hfind]

/-- The unit phase touches only the `unit` field. -/
theorem unitPhase_preserves (s : FusedAnno) (pv : PageValues) (c : String) :
    (unitPhase s pv c).zone_code = s.zone_code ∧
    (unitPhase s pv c).normalized_value = s.normalized_value ∧
    (unitPhase s pv c).has_values = s.has_values := by
  unfold unitPhase
  split_ifs <;> exact ⟨rfl, rfl, rfl⟩

/-- The value phase never touches the `zone_code` field. -/
theorem numericValuePhase_zone (base : FusedAnno) (pv : PageValues) (k : Nat) :
    (numericValuePhase base pv k).zone_code = base.zone_code := by
  unfold numericValuePhase
  split_ifs
  · rfl
  · cases pv.normalized_values.get? (k % pv.normalized_values.length) <;> rfl
  · rfl

/-- When `k` is below the number of values on the page, the value phase
    selects entry `k % len` and sets the flag. -/
theorem numericValuePhase_lt (base : FusedAnno) (pv : PageValues) (k : Nat)
    (hk : k < pv.normalized_values.length) :
    ∃ e, pv.normalized_values.get? (k % pv.normalized_values.length) = some e ∧
      numericValuePhase base pv k
        = { base with normalized_value := e.number, has_values := true } := by
  have hlen : 0 < pv.normalized_values.length := Nat.lt_of_le_of_lt (Nat.zero_le k) hk
  have hne : pv.normalized_values.isEmpty = false := by
    cases hl : pv.normalized_values with
    | nil => rw [hl] at hlen; simp at hlen
    | cons x xs => rfl
  have hmod : k % pv.normalized_values.length < pv.normalized_values.length :=
    Nat.mod_lt k hlen
  cases hg : pv.normalized_values.get? (k % pv.normalized_values.length) with
  | none => exact absurd (List.get?_eq_none.mp hg) (Nat.not_le.mpr hmod)
  | some e =>
    refine ⟨e, rfl, ?_⟩
    unfold numericValuePhase
    simp only [hne, Bool.false_eq_true, if_false, if_pos hk, hg]

/-- When `k` is at least the number of values on the page (including an
    empty page), the value phase leaves the record unchanged. -/
theorem numericValuePhase_ge (base : FusedAnno) (pv : PageValues) (k : Nat)
    (hk : pv.normalized_values.length ≤ k) :
    numericValuePhase base pv k = base := by
  unfold numericValuePhase
  by_cases he : pv.normalized_values.isEmpty = true
  · simp [he]
  · simp [he, Nat.not_lt.mpr hk]

/-- Branch equation: zone-code category. -/
theorem processOne_zone (cmap imap : List (Nat × String))
    (vbp : List (String × PageValues)) (k : Nat) (zones : List String)
    (a : CocoAnno)
    (hc : pyDictGet cmap a.category_id = some "ZONE_CODE") :
    processOne cmap imap vbp k zones a
      = Except.ok (processZone (baseFused imap a "ZONE_CODE")
          (pageValuesOf imap vbp a) zones) := by
  unfold processOne
  rw [hc]
  rfl

/-- Branch equation: numeric-field category. -/
theorem processOne_numeric (cmap imap : List (Nat × String))
    (vbp : List (String × PageValues)) (k : Nat) (zones : List String)
    (a : CocoAnno) (cname : String)
    (hc : pyDictGet cmap a.category_id = some cname)
    (hnum : numericCategories.contains cname = true) :
    processOne cmap imap vbp k zones a
      = Except.ok (processNumeric (baseFused imap a cname)
          (pageValuesOf imap vbp a) k cname, zones) := by
  unfold processOne
  rw [hc]
  simp only [if_neg (numericCategories_ne_zone hnum), if_pos hnum]

/-- Branch equation: any other category. -/
theorem processOne_other (cmap imap : List (Nat × String))
    (vbp : List (String × PageValues)) (k : Nat) (zones : List String)
    (a : CocoAnno) (cname : String)
    (hc : pyDictGet cmap a.category_id = some cname)
    (hz : ¬ cname = "ZONE_CODE")
    (hn : ¬ numericCategories.contains cname = true) :
    processOne cmap imap vbp k zones a
      = Except.ok (baseFused imap a cname, zones) := by
  unfold processOne
  rw [hc]
  simp only [if_neg hz, if_neg hn]

/-- Branch equation: dangling category reference. -/
theorem processOne_error (cmap imap : List (Nat × String))
    (vbp : List (String × PageValues)) (k : Nat) (zones : List String)
    (a : CocoAnno)
    (hc : pyDictGet cmap a.category_id = none) :
    processOne cmap imap vbp k zones a
      = Except.error ("KeyError: " ++ toString a.category_id) := by
  unfold processOne
  rw [hc]

/-- Successful processing of one annotation only ever grows the registry,
    and a zone code it assigns was not registered before but is after. -/
theorem processOne_zones_mono (cmap imap : List (Nat × String))
    (vbp : List (String × PageValues)) (k : Nat) (zones : List String)
    (a : CocoAnno) (fa : FusedAnno) (zs : List String)
    (h : processOne cmap imap vbp k zones a = Except.ok (fa, zs)) :
    (∀ t, t ∈ zones → t ∈ zs) ∧
    (∀ t, fa.zone_code = some t → t ∉ zones ∧ t ∈ zs) := by
  cases hc : pyDictGet cmap a.category_id with
  | none =>
    rw [processOne_error cmap imap vbp k zones a hc] at h
    exact absurd h (by simp)
  | some cname =>
    by_cases hz : cname = "ZONE_CODE"
    · subst hz
      rw [processOne_zone cmap imap vbp k zones a hc] at h
      have hpz : processZone (baseFused imap a "ZONE_CODE")
          (pageValuesOf imap vbp a) zones = (fa, zs) := Except.ok.inj h
      cases hfind : (pageValuesOf imap vbp a).zone_codes.find?
          (fun w => !(zones.contains w.text)) with
      | some z =>
        rw [processZone_some _ _ _ z hfind] at hpz
        have hfa : fa = { baseFused imap a "ZONE_CODE" with
            zone_code := some z.text, has_values := true } :=
          (Prod.mk.injEq _ _ _ _ ▸ hpz).1.symm
        have hzs : zs = z.text :: zones := (Prod.mk.injEq _ _ _ _ ▸ hpz).2.symm
        have hnotin : z.text ∉ zones := by
          have hp := List.find?_some hfind
          simp only [Bool.not_eq_true'] at hp
          intro hmem
          have h2 : zones.contains z.text = true := List.elem_eq_true_of_mem hmem
          rw [h2] at hp
          exact Bool.true_eq_false.mp hp
        subst hzs
        refine ⟨fun t ht => List.mem_cons_of_mem _ ht, fun t ht => ?_⟩
        have : some z.text = some t := by rw [← ht, hfa]
        have hzt : z.text = t := Option.some.inj this
        subst hzt
        exact ⟨hnotin, List.mem_cons_self _ _⟩
      | none =>
        rw [processZone_none _ _ _ hfind] at hpz
        have hfa : fa = baseFused imap a "ZONE_CODE" :=
          (Prod.mk.injEq _ _ _ _ ▸ hpz).1.symm
        have hzs : zs = zones := (Prod.mk.injEq _ _ _ _ ▸ hpz).2.symm
        subst hzs
        refine ⟨fun t ht => ht, fun t ht => ?_⟩
        rw [hfa] at ht
        exact absurd ht (by simp [baseFused])
    · by_cases hn : numericCategories.contains cname = true
      · rw [processOne_numeric cmap imap vbp k zones a cname hc hn] at h
        have hpz := Except.ok.inj h
        have hfa : fa = processNumeric (baseFused imap a cname)
            (pageValuesOf imap vbp a) k cname :=
          (Prod.mk.injEq _ _ _ _ ▸ hpz).1.symm
        have hzs : zs = zones := (Prod.mk.injEq _ _ _ _ ▸ hpz).2.symm
        subst hzs
        refine ⟨fun t ht => ht, fun t ht => ?_⟩
        rw [hfa] at ht
        unfold processNumeric at ht
        rw [(unitPhase_preserves _ _ _).1, numericValuePhase_zone] at ht
        exact absurd ht (by simp [baseFused])
      · rw [processOne_other cmap imap vbp k zones a cname hc hz hn] at h
        have hpz := Except.ok.inj h
        have hfa : fa = baseFused imap a cname :=
          (Prod.mk.injEq _ _ _ _ ▸ hpz).1.symm
        have hzs : zs = zones := (Prod.mk.injEq _ _ _ _ ▸ hpz).2.symm
        subst hzs
        refine ⟨fun t ht => ht, fun t ht => ?_⟩
        rw [hfa] at ht
        exact absurd ht (by simp [baseFused])

/-- Registry invariant of the merge loop: texts already registered are never
    assigned by the remaining annotations, and every text is assigned at
    most once. -/
theorem mergeLoop_zone_unique (cmap imap : List (Nat × String))
    (vbp : List (String × PageValues)) :
    ∀ (annos : List CocoAnno) (k : Nat) (zones : List String)
      (out : List FusedAnno),
      mergeLoop cmap imap vbp annos k zones = Except.ok out →
      (∀ t, t ∈ zones →
        out.countP (fun fa => decide (fa.zone_code = some t)) = 0) ∧
      (∀ t, out.countP (fun fa => decide (fa.zone_code = some t)) ≤ 1) := by
  intro annos
  induction annos with
  | nil =>
    intro k zones out h
    have hout : out = [] := (Except.ok.inj h).symm
    subst hout
    simp
  | cons a rest ih =>
    intro k zones out h
    unfold mergeLoop at h
    split at h
    · exact absurd h (by simp)
    · rename_i fa zs hp
      split at h
      · exact absurd h (by simp)
      · rename_i out' hm
        have hout : out = fa :: out' := (Except.ok.inj h).symm
        subst hout
        obtain ⟨hmono, hassign⟩ :=
          processOne_zones_mono cmap imap vbp k zones a fa zs hp
        obtain ⟨ih0, ih1⟩ := ih (k + 1) zs out' hm
        constructor
        · intro t ht
          have h0 : out'.countP (fun fa => decide (fa.zone_code = some t)) = 0 :=
            ih0 t (hmono t ht)
          have hne : ¬ fa.zone_code = some t := fun hcon => (hassign t hcon).1 ht
          simp [List.countP_cons, h0, hne]
        · intro t
          by_cases hzc : fa.zone_code = some t
          · have h0 : out'.countP (fun fa => decide (fa.zone_code = some t)) = 0 :=
              ih0 t (hassign t hzc).2
            simp [List.countP_cons, h0, hzc]
          · have h1 := ih1 t
            simp only [List.countP_cons, hzc, decide_False, if_false]
            simpa using h1

/-- A key that occurs in the association list is found by `pyDictGet`. -/
theorem pyDictGet_isSome_of_mem {α β : Type} [BEq α] [LawfulBEq α]
    (l : List (α × β)) (k : α) (h : ∃ p ∈ l, p.1 = k) :
    (pyDictGet l k).isSome = true := by
  obtain ⟨p, hp, hk⟩ := h
  unfold pyDictGet
  have hs : (l.reverse.find? (fun p => p.1 == k)).isSome = true := by
    rw [List.find?_isSome]
    exact ⟨p, List.mem_reverse.mpr hp, by rw [hk]; exact beq_self_eq_true k⟩
  cases hf : l.reverse.find? (fun p => p.1 == k) with
  | none => rw [hf] at hs; exact absurd hs (by simp)
  | some q => rfl

/-- Processing one annotation succeeds whenever its category id resolves. -/
theorem processOne_ok (cmap imap : List (Nat × String))
    (vbp : List (String × PageValues)) (k : Nat) (zones : List String)
    (a : CocoAnno) (cname : String)
    (hc : pyDictGet cmap a.category_id = some cname) :
    ∃ fa zs, processOne cmap imap vbp k zones a = Except.ok (fa, zs) := by
  by_cases hz : cname = "ZONE_CODE"
  · subst hz
    exact ⟨(processZone (baseFused imap a "ZONE_CODE") (pageValuesOf imap vbp a) zones).1,
           (processZone (baseFused imap a "ZONE_CODE") (pageValuesOf imap vbp a) zones).2,
           processOne_zone cmap imap vbp k zones a hc⟩
  · by_cases hn : numericCategories.contains cname = true
    · exact ⟨_, _, processOne_numeric cmap imap vbp k zones a cname hc hn⟩
    · exact ⟨_, _, processOne_other cmap imap vbp k zones a cname hc hz hn⟩

/-- When every remaining annotation has a resolvable category id, the merge
    loop succeeds and yields exactly one fused record per annotation. -/
theorem mergeLoop_ok_length (cmap imap : List (Nat × String))
    (vbp : List (String × PageValues)) :
    ∀ (annos : List CocoAnno),
      (∀ a ∈ annos, (pyDictGet cmap a.category_id).isSome = true) →
      ∀ (k : Nat) (zones : List String),
        ∃ out, mergeLoop cmap imap vbp annos k zones = Except.ok out ∧
          out.length = annos.length := by
  intro annos
  induction annos with
  | nil => exact fun _ k zones => ⟨[], rfl, rfl⟩
  | cons a rest ih =>
    intro hall k zones
    obtain ⟨cname, hc⟩ :=
      Option.isSome_iff_exists.mp (hall a (List.mem_cons_self a rest))
    obtain ⟨fa, zs, hp⟩ := processOne_ok cmap imap vbp k zones a cname hc
    obtain ⟨out, hm, hlen⟩ :=
      ih (fun x hx => hall x (List.mem_cons_of_mem a hx)) (k + 1) zs
    refine ⟨fa :: out, ?_, by simp [hlen]⟩
    unfold mergeLoop
    rw [hp]
    show (match mergeLoop cmap imap vbp rest (k + 1) zs with
      | Except.error e => Except.error e
      | Except.ok out2 => Except.ok (fa :: out2)) = Except.ok (fa :: out)
    rw [hm]

/-- C3 counterexample: a run in which zone text B is assigned, the first
    ZONE_CODE annotation is on a page that lists B, and yet that annotation
    does not receive B — it receives A, the first unconsumed text in its
    page list, and B goes to the second annotation.  This refutes the
    claimed rule that the first ZONE_CODE annotation (in page order, then
    annotation order) whose page lists a text receives that text; the
    at-most-one part of the claim does hold (see the amended theorem). -/
theorem c3_counterexample :
    ((merge_with_coco c3coco (extract_all_label_studio_values c3tasks)).toOption.map
        (fun l => l.map (fun fa => (fa.category, fa.zone_code)))
      = some [("ZONE_CODE", some "A"), ("ZONE_CODE", some "B")]) ∧
    ((pyDictGet (extract_all_label_studio_values c3tasks) "p.png").map
        (fun pv => pv.zone_codes.map (fun z => z.text)) = some ["A", "B"]) ∧
    ((merge_with_coco c3coco (extract_all_label_studio_values c3tasks)).toOption.map
        (fun l => l.map (fun fa => fa.image_filename)) = some ["p.png", "p.png"]) ∧
    ¬ (some "A" = some "B") :=
  ⟨rfl, rfl, rfl, by decide⟩

/-- C3 amended: within a single fusion run each zone-code text is assigned
    to at most one fused annotation; a ZONE_CODE annotation receives the
    first text of its page zone-code list that is not yet in the registry
    (in page-list order), that text is then registered, so later occurrences
    of the same text are skipped; the registry starts empty (the second and
    third conjuncts state the per-annotation assignment rule). -/
theorem c3_amended_zone_uniqueness :
    (∀ (coco : CocoData) (vbp : List (String × PageValues)) (out : List FusedAnno),
      merge_with_coco coco vbp = Except.ok out →
      ∀ t, out.countP (fun fa => decide (fa.zone_code = some t)) ≤ 1) ∧
    (∀ (base : FusedAnno) (pv : PageValues) (zones : List String) (z : ZoneEntry),
      pv.zone_codes.find? (fun w => !(zones.contains w.text)) = some z →
      processZone base pv zones
        = ({ base with zone_code := some z.text, has_values := true },
           z.text :: zones)) ∧
    (∀ (base : FusedAnno) (pv : PageValues) (zones : List String),
      pv.zone_codes.find? (fun w => !(zones.contains w.text)) = none →
      processZone base pv zones = (base, zones)) := by
  refine ⟨?_, processZone_some, processZone_none⟩
  intro coco vbp out h t
  unfold merge_with_coco at h
  exact (mergeLoop_zone_unique _ _ vbp coco.annos 0 [] out h).2 t

/-- C3 amended witness: the at-most-one bound evaluated on the concrete run
    of the counterexample inputs. -/
theorem c3_amended_zone_uniqueness_witness :
    ((merge_with_coco c3coco (extract_all_label_studio_values c3tasks)).toOption.getD
       []).countP (fun fa => decide (fa.zone_code = some "A")) ≤ 1 :=
  c3_amended_zone_uniqueness.1 c3coco (extract_all_label_studio_values c3tasks)
    ((merge_with_coco c3coco (extract_all_label_studio_values c3tasks)).toOption.getD [])
    rfl "A"

/-- C7 counterexample: an input that passes loading (all three top-level
    lists present) but whose single annotation references category id 99,
    absent from the category table; fusion aborts with a KeyError-style
    lookup failure instead of completing, refuting the claim that dangling
    per-record category references do not abort the run. -/
theorem c7_counterexample :
    merge_with_coco c7coco [] = Except.error "KeyError: 99" ∧
    c7coco.annos.length = 1 := ⟨rfl, rfl⟩

/-- C7 amended: missing-file and malformed-export failures abort loading;
    after loading, fusion additionally aborts with a key lookup error
    exactly when some annotation references a category id missing from the
    category table — when every annotation category id resolves, the
    pipeline completes and produces one fused annotation per structural
    annotation without raising (dangling image references never abort; they
    default to an empty page). -/
theorem c7_amended_category_abort (coco : CocoData)
    (vbp : List (String × PageValues))
    (hres : ∀ a ∈ coco.annos, ∃ c ∈ coco.categories, c.id = a.category_id) :
    ∃ out, merge_with_coco coco vbp = Except.ok out ∧
      out.length = coco.annos.length := by
  have hall : ∀ a ∈ coco.annos,
      (pyDictGet (coco.categories.map (fun c => (c.id, c.name)))
        a.category_id).isSome = true := by
    intro a ha
    obtain ⟨c, hcmem, hcid⟩ := hres a ha
    exact pyDictGet_isSome_of_mem _ _
      ⟨(c.id, c.name), List.mem_map_of_mem _ hcmem, hcid⟩
  obtain ⟨out, hm, hlen⟩ := mergeLoop_ok_length
    (coco.categories.map (fun c => (c.id, c.name)))
    (coco.images.map (fun img => (img.id, basename img.file_name)))
    vbp coco.annos hall 0 []
  exact ⟨out, hm, hlen⟩

/-- C7 amended witness: a concrete structural export whose single
    annotation resolves; the merge completes with one fused record. -/
theorem c7_amended_category_abort_witness :
    ∃ out, merge_with_coco c7okCoco [] = Except.ok out ∧
      out.length = c7okCoco.annos.length :=
  c7_amended_category_abort c7okCoco [] (by decide)

/-- C5 counterexample: a page with exactly one normalized numeric value
    (number 7) and two MIN_LOT_AREA annotations.  The second annotation has
    k = 1 fused annotations already produced, and the claim predicts it is
    assigned normalized_values[1 % 1] = 7 with has_values = true; the code
    assigns nothing (guard `k < len(normalized_values)` fails) and leaves
    has_values = false. -/
theorem c5_counterexample :
    ((merge_with_coco c5coco (extract_all_label_studio_values c5tasks)).toOption.map
        (fun l => l.map (fun fa => (fa.normalized_value, fa.has_values)))
      = some [(some 7, true), (none, false)]) ∧
    ¬ ([((some 7 : Option Int), true), (none, false)]
        = [((some 7 : Option Int), true), (some 7, true)]) :=
  ⟨rfl, by decide⟩

/-- C5 amended: for a numeric-field-category annotation, a value is
    assigned only when k (the count of fused annotations produced so far in
    the run) is strictly below the page count of normalized values; in that
    case the entry at index k % len (which equals k) is assigned and
    has_values is set; when k is at least that count — even though the page
    has values — nothing is assigned and has_values stays false. -/
theorem c5_amended_positional (cmap imap : List (Nat × String))
    (vbp : List (String × PageValues)) (k : Nat) (zones : List String)
    (a : CocoAnno) (cname : String)
    (hc : pyDictGet cmap a.category_id = some cname)
    (hnum : numericCategories.contains cname = true) :
    ∃ fa, processOne cmap imap vbp k zones a = Except.ok (fa, zones) ∧
      (k < (pageValuesOf imap vbp a).normalized_values.length →
        ∃ e, (pageValuesOf imap vbp a).normalized_values.get?
            (k % (pageValuesOf imap vbp a).normalized_values.length) = some e ∧
          fa.normalized_value = e.number ∧ fa.has_values = true) ∧
      ((pageValuesOf imap vbp a).normalized_values.length ≤ k →
        fa.normalized_value = none ∧ fa.has_values = false) := by
  refine ⟨processNumeric (baseFused imap a cname) (pageValuesOf imap vbp a) k cname,
    processOne_numeric cmap imap vbp k zones a cname hc hnum, ?_, ?_⟩
  · intro hk
    obtain ⟨e, he, hval⟩ :=
      numericValuePhase_lt (baseFused imap a cname) (pageValuesOf imap vbp a) k hk
    refine ⟨e, he, ?_, ?_⟩
    · unfold processNumeric
      rw [(unitPhase_preserves _ _ _).2.1, hval]
    · unfold processNumeric
      rw [(unitPhase_preserves _ _ _).2.2, hval]
  · intro hk
    have hval := numericValuePhase_ge (baseFused imap a cname)
      (pageValuesOf imap vbp a) k hk
    constructor
    · unfold processNumeric
      rw [(unitPhase_preserves _ _ _).2.1, hval]
      rfl
    · unfold processNumeric
      rw [(unitPhase_preserves _ _ _).2.2, hval]
      rfl

/-- C5 amended witness: both regimes at concrete inputs — the page of the
    C5 counterexample with k = 1 (no assignment). -/
theorem c5_amended_positional_witness :
    ∃ fa, processOne [((2 : Nat), "MIN_LOT_AREA")] [((1 : Nat), "p.png")]
        (extract_all_label_studio_values c5tasks) 1 []
        { id := 2, image_id := 1, category_id := 2, bbox := bb0 }
      = Except.ok (fa, []) ∧
      (1 < (pageValuesOf [((1 : Nat), "p.png")]
          (extract_all_label_studio_values c5tasks)
          { id := 2, image_id := 1, category_id := 2, bbox := bb0 }).normalized_values.length →
        ∃ e, (pageValuesOf [((1 : Nat), "p.png")]
            (extract_all_label_studio_values c5tasks)
            { id := 2, image_id := 1, category_id := 2, bbox := bb0 }).normalized_values.get?
            (1 % (pageValuesOf [((1 : Nat), "p.png")]
              (extract_all_label_studio_values c5tasks)
              { id := 2, image_id := 1, category_id := 2, bbox := bb0 }).normalized_values.length)
            = some e ∧
          fa.normalized_value = e.number ∧ fa.has_values = true) ∧
      ((pageValuesOf [((1 : Nat), "p.png")]
          (extract_all_label_studio_values c5tasks)
          { id := 2, image_id := 1, category_id := 2, bbox := bb0 }).normalized_values.length ≤ 1 →
        fa.normalized_value = none ∧ fa.has_values = false) :=
  c5_amended_positional [((2 : Nat), "MIN_LOT_AREA")] [((1 : Nat), "p.png")]
    (extract_all_label_studio_values c5tasks) 1 []
    { id := 2, image_id := 1, category_id := 2, bbox := bb0 } "MIN_LOT_AREA"
    rfl (by decide)

/-- C6 counterexample: on the scenario input (structural export with 2
    images and 3 annotations — two ZONE_CODE then one MIN_LOT_AREA; value
    export with one page, zone texts R-1, R-1 and one numeric value 5000)
    the MIN_LOT_AREA annotation does not get normalized_value 5000, unit
    sqft and has_values true as the claim expects: it is processed third
    (k = 2, page has 1 value, guard fails) and the page has no unit
    choices, so all three fields stay unset. -/
theorem c6_counterexample :
    ((merge_with_coco c6coco (extract_all_label_studio_values c6tasks)).toOption.map
        (fun l => l.map fusedSummary)
      = some [(some "R-1", none, none, true),
              (none, none, none, false),
              (none, none, none, false)]) ∧
    ¬ (((none : Option String), (none : Option Int), (none : Option String), false)
        = ((none : Option String), (some 5000 : Option Int), some "sqft", true)) :=
  ⟨rfl, by decide⟩

/-- C6 amended: on the scenario input, the first ZONE_CODE annotation gets
    zone R-1 with has_values true; the second ZONE_CODE annotation (its
    page duplicate text already consumed) gets no zone and has_values
    false; the MIN_LOT_AREA annotation, processed third with only one
    numeric value on the page and no unit choices, gets no normalized
    value, no unit, and has_values false. -/
theorem c6_amended_scenario :
    (merge_with_coco c6coco (extract_all_label_studio_values c6tasks)).toOption.map
        (fun l => l.map fusedSummary)
      = some [(some "R-1", none, none, true),
              (none, none, none, false),
              (none, none, none, false)] := rfl

/-- C9: value entries whose number field is null are recorded by the
    indexer as entries with number none (first conjunct), and when fusion
    selects such an entry for a numeric-field-category annotation it sets
    has_values to true while leaving normalized_value none (second
    conjunct). -/
theorem c9_null_number_sets_flag :
    (∀ (pv : PageValues) (r : LSResult),
      ¬ r.rtype = some "rectanglelabels" →
      r.from_name = some "normalized_value" →
      r.value_number = none →
      (addResult pv r).normalized_values = pv.normalized_values ++
        [{ number := none, x := r.value_x.getD 0, y := r.value_y.getD 0 }]) ∧
    (∀ (cmap imap : List (Nat × String)) (vbp : List (String × PageValues))
      (k : Nat) (zones : List String) (a : CocoAnno) (cname : String)
      (e : NumEntry),
      pyDictGet cmap a.category_id = some cname →
      numericCategories.contains cname = true →
      k < (pageValuesOf imap vbp a).normalized_values.length →
      (pageValuesOf imap vbp a).normalized_values.get?
          (k % (pageValuesOf imap vbp a).normalized_values.length) = some e →
      e.number = none →
      ∃ fa, processOne cmap imap vbp k zones a = Except.ok (fa, zones) ∧
        fa.has_values = true ∧ fa.normalized_value = none) := by
  constructor
  · intro pv r h1 h2 h3
    unfold addResult
    rw [if_neg h1, if_pos h2, h3]
  · intro cmap imap vbp k zones a cname e hc hnum hk he hnull
    obtain ⟨e2, he2, hval⟩ :=
      numericValuePhase_lt (baseFused imap a cname) (pageValuesOf imap vbp a) k hk
    have hee : e2 = e := Option.some.inj (he2 ▸ he)
    subst hee
    refine ⟨processNumeric (baseFused imap a cname) (pageValuesOf imap vbp a) k cname,
      processOne_numeric cmap imap vbp k zones a cname hc hnum, ?_, ?_⟩
    · unfold processNumeric
      rw [(unitPhase_preserves _ _ _).2.2, hval]
    · unfold processNumeric
      rw [(unitPhase_preserves _ _ _).2.1, hval]
      exact hnull

/-- C9 witness: the fusion conjunct applied at a concrete page whose single
    value entry has a null number. -/
theorem c9_null_number_sets_flag_witness :
    ∃ fa, processOne [((2 : Nat), "MIN_LOT_AREA")] [((1 : Nat), "p.png")] c9vbp 0 [] c9anno
      = Except.ok (fa, []) ∧ fa.has_values = true ∧ fa.normalized_value = none :=
  c9_null_number_sets_flag.2 [((2 : Nat), "MIN_LOT_AREA")] [((1 : Nat), "p.png")]
    c9vbp 0 [] c9anno "MIN_LOT_AREA"
    { number := none, x := 0, y := 0 } rfl (by decide) (by decide) rfl rfl

/-- A successfully fused annotation whose has_values flag is false carries
    neither a zone code nor a normalized value: the zone branch sets the
    flag together with the zone code, the numeric branch sets it together
    with the value, and every other path leaves all three fields at their
    base defaults. -/
theorem processOne_false_flag (cmap imap : List (Nat × String))
    (vbp : List (String × PageValues)) (k : Nat) (zones : List String)
    (a : CocoAnno) (fa : FusedAnno) (zs : List String)
    (h : processOne cmap imap vbp k zones a = Except.ok (fa, zs))
    (hf : fa.has_values = false) :
    fa.zone_code = none ∧ fa.normalized_value = none := by
  cases hc : pyDictGet cmap a.category_id with
  | none =>
    rw [processOne_error cmap imap vbp k zones a hc] at h
    exact absurd h (by simp)
  | some cname =>
    by_cases hz : cname = "ZONE_CODE"
    · subst hz
      rw [processOne_zone cmap imap vbp k zones a hc] at h
      have hpz : processZone (baseFused imap a "ZONE_CODE")
          (pageValuesOf imap vbp a) zones = (fa, zs) := Except.ok.inj h
      cases hfind : (pageValuesOf imap vbp a).zone_codes.find?
          (fun w => !(zones.contains w.text)) with
      | some z =>
        rw [processZone_some _ _ _ z hfind] at hpz
        have hfa : fa = { baseFused imap a "ZONE_CODE" with
            zone_code := some z.text, has_values := true } :=
          (Prod.mk.injEq _ _ _ _ ▸ hpz).1.symm
        rw [hfa] at hf
        exact absurd hf (by simp)
      | none =>
        rw [processZone_none _ _ _ hfind] at hpz
        have hfa : fa = baseFused imap a "ZONE_CODE" :=
          (Prod.mk.injEq _ _ _ _ ▸ hpz).1.symm
        rw [hfa]
        exact ⟨rfl, rfl⟩
    · by_cases hn : numericCategories.contains cname = true
      · rw [processOne_numeric cmap imap vbp k zones a cname hc hn] at h
        have hpz := Except.ok.inj h
        have hfa : fa = processNumeric (baseFused imap a cname)
            (pageValuesOf imap vbp a) k cname :=
          (Prod.mk.injEq _ _ _ _ ▸ hpz).1.symm
        by_cases hk : k < (pageValuesOf imap vbp a).normalized_values.length
        · obtain ⟨e, he, hval⟩ := numericValuePhase_lt (baseFused imap a cname)
            (pageValuesOf imap vbp a) k hk
          have htrue : fa.has_values = true := by
            rw [hfa]
            unfold processNumeric
            rw [(unitPhase_preserves _ _ _).2.2, hval]
          rw [htrue] at hf
          exact absurd hf (by simp)
        · have hval := numericValuePhase_ge (baseFused imap a cname)
            (pageValuesOf imap vbp a) k (Nat.not_lt.mp hk)
          constructor
          · rw [hfa]
            unfold processNumeric
            rw [(unitPhase_preserves _ _ _).1, hval]
            rfl
          · rw [hfa]
            unfold processNumeric
            rw [(unitPhase_preserves _ _ _).2.1, hval]
            rfl
      · rw [processOne_other cmap imap vbp k zones a cname hc hz hn] at h
        have hpz := Except.ok.inj h
        have hfa : fa = baseFused imap a cname :=
          (Prod.mk.injEq _ _ _ _ ▸ hpz).1.symm
        rw [hfa]
        exact ⟨rfl, rfl⟩

/-- Every record in a successful merge-loop output with has_values false is
    not high-quality: both tested fields are none, so the truthiness test
    of the dataset builder is false on it. -/
theorem mergeLoop_false_flag (cmap imap : List (Nat × String))
    (vbp : List (String × PageValues)) :
    ∀ (annos : List CocoAnno) (k : Nat) (zones : List String)
      (out : List FusedAnno),
      mergeLoop cmap imap vbp annos k zones = Except.ok out →
      ∀ fa ∈ out, fa.has_values = false → isHighQuality fa = false := by
  intro annos
  induction annos with
  | nil =>
    intro k zones out h
    have hout : out = [] := (Except.ok.inj h).symm
    subst hout
    intro fa hfa
    exact absurd hfa (List.not_mem_nil fa)
  | cons a rest ih =>
    intro k zones out h
    unfold mergeLoop at h
    split at h
    · exact absurd h (by simp)
    · rename_i fa0 zs hp
      split at h
      · exact absurd h (by simp)
      · rename_i out' hm
        have hout : out = fa0 :: out' := (Except.ok.inj h).symm
        subst hout
        intro fa hfa hflag
        cases List.mem_cons.mp hfa with
        | inl heq =>
          subst heq
          obtain ⟨hzc, hnv⟩ :=
            processOne_false_flag cmap imap vbp k zones a fa zs hp hflag
          unfold isHighQuality
          rw [hzc, hnv]
          rfl
        | inr hmem => exact ih (k + 1) zs out' hm fa hmem hflag

/-- C4 amended: the dataset builder partitions by Python truthiness of
    `zone_code` and `normalized_value` — an input annotation is in
    `high_quality` exactly when its zone code is a non-empty string or its
    normalized value is a non-null, non-zero number, and in `medium_quality`
    exactly otherwise (first two conjuncts); a fused annotation produced by
    the merge with `has_values = false` carries neither field, so it always
    lands in `medium_quality` (third conjunct); `has_values = true` does not
    guarantee `high_quality` — a null assigned value lands in
    `medium_quality` (see the counterexample). -/
theorem c4_amended_tiering (σ : Type) (np_seed : Nat → σ)
    (np_shuffle : σ → List FusedAnno → List FusedAnno × σ)
    (hperm : ∀ s l, List.Perm (np_shuffle s l).1 l)
    (annos : List FusedAnno) (a : FusedAnno) (ha : a ∈ annos) :
    (a ∈ (create_training_dataset σ np_seed np_shuffle annos).high_quality
      ↔ isHighQuality a = true) ∧
    (a ∈ (create_training_dataset σ np_seed np_shuffle annos).medium_quality
      ↔ isHighQuality a = false) ∧
    (∀ (coco : CocoData) (vbp : List (String × PageValues)),
      merge_with_coco coco vbp = Except.ok annos →
      a.has_values = false →
      a ∈ (create_training_dataset σ np_seed np_shuffle annos).medium_quality) := by
  rw [ctd_hq, ctd_mq]
  have hperm1 : List.Perm (hqShuf σ np_seed np_shuffle annos).1
      (annos.filter (fun a => isHighQuality a)) := hperm _ _
  have hperm2 : List.Perm (mqShuf σ np_seed np_shuffle annos).1
      (annos.filter (fun a => !(isHighQuality a))) := hperm _ _
  have h1 : a ∈ (hqShuf σ np_seed np_shuffle annos).1 ↔ isHighQuality a = true := by
    rw [hperm1.mem_iff, List.mem_filter]
    simp [ha]
  have h2 : a ∈ (mqShuf σ np_seed np_shuffle annos).1 ↔ isHighQuality a = false := by
    rw [hperm2.mem_iff, List.mem_filter]
    simp [ha]
  refine ⟨h1, h2, ?_⟩
  intro coco vbp hok hflag
  unfold merge_with_coco at hok
  have hfalse : isHighQuality a = false :=
    mergeLoop_false_flag _ _ vbp coco.annos 0 [] annos hok a ha hflag
  exact h2.mpr hfalse

/-- C4 amended witness: the tiering equivalences and the has_values-false
    consequence at the concrete input wAnnos for the medium-quality record
    wMed. -/
theorem c4_amended_tiering_witness :
    (wMed ∈ (create_training_dataset Unit unitSeed idShuffle wAnnos).high_quality
      ↔ isHighQuality wMed = true) ∧
    (wMed ∈ (create_training_dataset Unit unitSeed idShuffle wAnnos).medium_quality
      ↔ isHighQuality wMed = false) ∧
    (∀ (coco : CocoData) (vbp : List (String × PageValues)),
      merge_with_coco coco vbp = Except.ok wAnnos →
      wMed.has_values = false →
      wMed ∈ (create_training_dataset Unit unitSeed idShuffle wAnnos).medium_quality) :=
  c4_amended_tiering Unit unitSeed idShuffle (fun _ l => List.Perm.refl l)
    wAnnos wMed (by decide)
